import Mathlib

/-!
Formal model of the travel-booking backend: account and booking records,
the JWT request authenticator, the booking lifecycle, registration and
login, proximity search and pagination, translated from the Express route
handlers and Mongoose schemas of the repository.

Conventions of the embedding:
* JavaScript strings are Lean strings; the JavaScript string operations
  that the handlers use (split, startsWith, toUpperCase, toLowerCase,
  includes) are re-implemented structurally over the character list of
  the string, mirroring their semantics on the UTF-16 code units.
* Booking references are kept as lists of natural code points, because
  the reference machinery is exactly case mapping over code units.
* bcrypt hashing is abstracted as the identity function, so that the
  stored credential is compared for equality by comparePassword; the
  claims settled here depend only on whether the presented secret
  matches the stored one, never on properties of the hash itself.
* JWT signing and verification are abstracted: a signed token carries
  the payload of getSignedJwtToken, and token verification is an
  arbitrary function from token strings to optional payloads, with
  none modelling an invalid or expired signature (fail closed).
* The Mongo collections are lists of documents; findOne is List.find?,
  countDocuments is the length of a filter, deleteMany and
  findByIdAndDelete are filters, and save writes the found document
  back in place.
-/

/-! ## JavaScript string operations over character lists -/

/-- JavaScript String.prototype.split with a single-character separator:
splitting the empty string gives one empty field, and each separator
occurrence starts a new field. -/
def splitChars (sep : Char) : List Char → List (List Char)
  | [] => [[]]
  | c :: rest =>
    let r := splitChars sep rest
    if c = sep then [] :: r
    else
      match r with
      | [] => [[c]]
      | h :: t => (c :: h) :: t

/-- Whether the first list is an initial segment of the second
(JavaScript String.prototype.startsWith over code units). -/
def beginsWith : List Char → List Char → Bool
  | [], _ => true
  | _ :: _, [] => false
  | p :: ps, c :: cs => decide (p = c) && beginsWith ps cs

/-- JavaScript s.split(' ') as used on the Authorization header. -/
def jsSplitSpace (s : String) : List String :=
  (splitChars ' ' s.data).map (fun cs => String.mk cs)

/-- JavaScript s.startsWith(p). -/
def jsStartsWith (s p : String) : Bool := beginsWith p.data s.data

/-- Whether needle occurs contiguously inside haystack
(JavaScript String.prototype.includes). -/
def containsSeq (needle : List Char) : List Char → Bool
  | [] => beginsWith needle []
  | c :: rest => beginsWith needle (c :: rest) || containsSeq needle rest

/-- JavaScript s.includes(sub). -/
def jsIncludes (s sub : String) : Bool := containsSeq sub.data s.data

/-- ASCII lower-casing of one character (JavaScript toLowerCase on the
alphabet the handlers compare: ASCII letters). -/
def lowChar (c : Char) : Char :=
  if 65 ≤ c.toNat ∧ c.toNat ≤ 90 then Char.ofNat (c.toNat + 32) else c

/-- JavaScript s.toLowerCase(). -/
def jsToLowerCaseStr (s : String) : String := String.mk (s.data.map lowChar)

/-- The code points of a string literal, for the booking-reference
machinery, which works on code-unit sequences. -/
def strCodes (s : String) : List Nat := s.data.map Char.toNat

/-- ASCII upper-casing of one code unit (JavaScript toUpperCase on the
booking-reference alphabet). -/
def upCode (n : Nat) : Nat := if 97 ≤ n ∧ n ≤ 122 then n - 32 else n

/-- JavaScript s.toUpperCase() over a code-unit sequence. -/
def jsToUpperCase (codes : List Nat) : List Nat := codes.map upCode

/-- JavaScript truthiness of a string value that may be absent: the
empty string and an absent value are both falsy. The middleware tests
the extracted token with if (!token). -/
def jsTruthyToken : Option String → Option String
  | none => none
  | some s => if s = "" then none else some s

/-! ## Account records (backend/src/models/User.ts) -/

/-- The role enumeration of UserSchema. -/
inductive Role where
  | user
  | admin
deriving DecidableEq, Repr

/-- The preferences sub-document of UserSchema. -/
structure Preferences where
  currency : String
  language : String
  notifications : Bool
deriving DecidableEq, Repr

/-- Schema defaults: currency USD, language en, notifications true. -/
def defaultPreferences : Preferences :=
  { currency := "USD", language := "en", notifications := true }

/-- The passport sub-document of UserSchema. -/
structure Passport where
  number : String
  expiryDate : String
  countryOfIssue : String
deriving DecidableEq, Repr

/-- An account document of the User collection. The password field holds
the stored (hashed) credential and is marked select false in the schema;
the projections below model its exclusion from reads. -/
structure User where
  id : Nat
  firstName : String
  lastName : String
  email : String
  password : String
  phone : Option String
  dateOfBirth : Option String
  passport : Option Passport
  preferences : Preferences
  isEmailVerified : Bool
  role : Role
deriving DecidableEq, Repr

/-- Printed form of a role, for serialization. -/
def roleString : Role → String
  | .user => "user"
  | .admin => "admin"

/-- The raw document as a key/value listing (this.toObject()): every
schema field is present, the password and the version key included.
Nested sub-documents are flattened to a printable value, which is
irrelevant to the claims, all of which concern key presence. -/
def User.toObject (u : User) : List (String × String) :=
  [("_id", toString u.id),
   ("firstName", u.firstName),
   ("lastName", u.lastName),
   ("email", u.email),
   ("password", u.password),
   ("phone", u.phone.getD ""),
   ("dateOfBirth", u.dateOfBirth.getD ""),
   ("passport", (u.passport.map (fun p => p.number)).getD ""),
   ("preferences", u.preferences.currency ++ "," ++ u.preferences.language),
   ("isEmailVerified", toString u.isEmailVerified),
   ("role", roleString u.role),
   ("createdAt", ""),
   ("updatedAt", ""),
   ("__v", "0")]

/-- JavaScript delete user[k]: drop the key from the document. -/
def eraseKey (k : String) (l : List (String × String)) : List (String × String) :=
  l.filter (fun p => !decide (p.1 = k))

/-- UserSchema.methods.toJSON: the object with the password and the
version key deleted, in that order. Every handler response serializes
accounts through this method. -/
def User.toJSON (u : User) : List (String × String) :=
  eraseKey "__v" (eraseKey "password" (User.toObject u))

/-- The projection select('-password') used when the authenticator and
the admin listing load accounts from the store. -/
def selectWithoutPassword (u : User) : List (String × String) :=
  eraseKey "password" (User.toObject u)

/-- bcrypt.hash with the hashing abstracted to the identity; the claims
depend only on match or mismatch of the presented secret. -/
def hashPassword (p : String) : String := p

/-- UserSchema.methods.comparePassword: bcrypt.compare of the entered
password against the stored credential, abstracted to equality. -/
def comparePassword (enteredPassword stored : String) : Bool :=
  decide (enteredPassword = stored)

/-- The payload signed into an access token by getSignedJwtToken:
account identifier, email and role. -/
structure JwtPayload where
  userId : Nat
  email : String
  role : Role
deriving DecidableEq, Repr

/-- UserSchema.methods.getSignedJwtToken with the signature abstracted:
the token is identified with its signed payload. -/
def getSignedJwtToken (u : User) : JwtPayload :=
  { userId := u.id, email := u.email, role := u.role }

/-- User.findById over the collection. -/
def findById (users : List User) (uid : Nat) : Option User :=
  users.find? (fun u => decide (u.id = uid))

/-! ## Booking records (backend/src/models/Booking.ts) -/

/-- The status enumeration of BookingSchema. -/
inductive BookingStatus where
  | pending
  | confirmed
  | cancelled
  | completed
deriving DecidableEq, Repr

/-- The type enumeration of BookingSchema. -/
inductive BookingType where
  | flight
  | hotel
  | car
  | restaurant
deriving DecidableEq, Repr

/-- A booking document. The reference is a code-unit sequence; the
opaque type-specific detail payload is kept as a string. -/
structure Booking where
  id : Nat
  user : Nat
  type : BookingType
  bookingReference : List Nat
  status : BookingStatus
  totalAmount : ℚ
  currency : String
  bookingDetails : String
deriving DecidableEq, Repr

/-- The code units of the schema value of a booking type. -/
def bookingTypeCodes : BookingType → List Nat
  | .flight => strCodes "flight"
  | .hotel => strCodes "hotel"
  | .car => strCodes "car"
  | .restaurant => strCodes "restaurant"

/-- The hyphen of the reference template. -/
def hyphenCode : List Nat := strCodes "-"

/-- BookingSchema.pre('save'): when no reference is present, build one
from the upper-cased type, a time-based component (Date.now in base 36)
and a random component, and upper-case the whole template. The two
generated components are parameters here, since they come from the
clock and the random source. -/
def generateBookingReference (t : BookingType) (timeComponent randomComponent : List Nat) : List Nat :=
  jsToUpperCase
    (jsToUpperCase (bookingTypeCodes t) ++ hyphenCode ++ timeComponent ++
      hyphenCode ++ randomComponent)

/-- Booking.findOne with _id and owning user, as the cancel and read
handlers query it. -/
def findBooking (bs : List Booking) (uid bid : Nat) : Option Booking :=
  bs.find? (fun b => decide (b.id = bid ∧ b.user = uid))

/-- booking.save(): write the mutated document back over the document
the handler found (matched in place; identifiers are unique in the
store). -/
def saveBooking : List Booking → Booking → List Booking
  | [], _ => []
  | x :: rest, nb =>
    if x.id = nb.id ∧ x.user = nb.user then nb :: rest
    else x :: saveBooking rest nb

/-- Outcome of the cancel handler (DELETE /bookings/:id). -/
inductive CancelOutcome where
  | error (httpStatus : Nat) (message : String)
  | ok (message : String)
deriving DecidableEq, Repr

/-- DELETE /bookings/:id: find the booking owned by the requester;
404 when absent; reject an already cancelled or a completed booking
with a 400 domain error; otherwise set the status to cancelled and
save. Returns the response together with the resulting store. -/
def cancelBooking (bs : List Booking) (uid bid : Nat) : CancelOutcome × List Booking :=
  match findBooking bs uid bid with
  | none => (.error 404 "Booking not found", bs)
  | some b =>
    if b.status = .cancelled then
      (.error 400 "Booking is already cancelled", bs)
    else if b.status = .completed then
      (.error 400 "Cannot cancel a completed booking", bs)
    else
      (.ok "Booking cancelled successfully", saveBooking bs { b with status := .cancelled })

/-- GET /bookings/reference/:reference: look the reference up after
upper-casing it, scoped to the requester. -/
def lookupByReference (bs : List Booking) (uid : Nat) (ref : List Nat) : Option Booking :=
  bs.find? (fun b => decide (b.bookingReference = jsToUpperCase ref ∧ b.user = uid))

/-! ## Account deletion (backend/src/routes/users.ts) -/

/-- The persistent store: the two collections the account routes touch. -/
structure Store where
  users : List User
  bookings : List Booking
deriving DecidableEq, Repr

/-- Booking.countDocuments with user and status in pending or
confirmed, the active-booking guard of account deletion. -/
def activeBookingCount (bs : List Booking) (uid : Nat) : Nat :=
  (bs.filter (fun b =>
    decide (b.user = uid ∧ (b.status = .pending ∨ b.status = .confirmed)))).length

/-- Outcome of the account-deletion handler. -/
inductive DeleteOutcome where
  | error (httpStatus : Nat) (message : String)
  | ok (message : String)
deriving DecidableEq, Repr

/-- DELETE /users/account: re-load the account with its credential,
verify the re-entered password, refuse while any booking of the account
is pending or confirmed, otherwise delete every booking of the account
and then the account. Returns the response with the resulting store. -/
def deleteAccount (st : Store) (uid : Nat) (password : String) : DeleteOutcome × Store :=
  match findById st.users uid with
  | none => (.error 404 "User not found", st)
  | some u =>
    if comparePassword password u.password then
      if 0 < activeBookingCount st.bookings uid then
        (.error 400 "Cannot delete account with active bookings. Please cancel or complete all bookings first.", st)
      else
        (.ok "Account deleted successfully",
          { users := st.users.filter (fun v => !decide (v.id = uid)),
            bookings := st.bookings.filter (fun b => !decide (b.user = uid)) })
    else
      (.error 401 "Invalid password", st)

/-! ## Registration and login (backend/src/routes/auth.ts) -/

/-- The body of POST /auth/register after the validator chain has
accepted it. -/
structure RegisterInput where
  firstName : String
  lastName : String
  email : String
  password : String
  phone : Option String
  dateOfBirth : Option String
deriving DecidableEq, Repr

/-- Outcome of the register handler. -/
inductive RegisterOutcome where
  | error (httpStatus : Nat) (message : String)
  | ok (user : List (String × String)) (token : JwtPayload)
deriving DecidableEq, Repr

/-- POST /auth/register, from the duplicate check on (the field
validator chain runs earlier and is independent of the store): when an
account with the email exists, answer 400 with the duplicate message
and leave the store alone; otherwise persist the new account with the
hashed credential and schema defaults, and answer with the sanitized
account and a signed token. Returns the response with the resulting
user collection. -/
def register (users : List User) (newId : Nat) (inp : RegisterInput) : RegisterOutcome × List User :=
  match users.find? (fun u => decide (u.email = inp.email)) with
  | some _ => (.error 400 "User with this email already exists", users)
  | none =>
    let u : User :=
      { id := newId, firstName := inp.firstName, lastName := inp.lastName,
        email := inp.email, password := hashPassword inp.password,
        phone := inp.phone, dateOfBirth := inp.dateOfBirth, passport := none,
        preferences := defaultPreferences, isEmailVerified := false, role := .user }
    (.ok (User.toJSON u) (getSignedJwtToken u), users ++ [u])

/-- Outcome of the login handler. -/
inductive LoginOutcome where
  | failure (httpStatus : Nat) (message : String)
  | success (user : List (String × String)) (token : JwtPayload)
deriving DecidableEq, Repr

/-- POST /auth/login: look the account up by email including the
credential; answer one and the same Unauthorized response whether no
account matches or the password mismatches; on a match answer the
sanitized account and a fresh token. -/
def login (users : List User) (email password : String) : LoginOutcome :=
  match users.find? (fun u => decide (u.email = email)) with
  | none => .failure 401 "Invalid email or password"
  | some u =>
    if comparePassword password u.password then
      .success (User.toJSON u) (getSignedJwtToken u)
    else
      .failure 401 "Invalid email or password"

/-! ## Request authenticator (backend/src/middleware/auth.ts) -/

/-- The parts of an incoming request the authenticator reads: the
Authorization header and the token cookie (the cookie header parsed to
its token entry, or none when the header or the entry is absent). -/
structure AuthRequest where
  authorization : Option String
  cookieToken : Option String
deriving DecidableEq, Repr

/-- The bearer-token extraction from the Authorization header: when the
header is present and starts with Bearer, the second space-separated
field. -/
def bearerHeaderToken (authorization : Option String) : Option String :=
  match authorization with
  | none => none
  | some h => if jsStartsWith h "Bearer" then (jsSplitSpace h).get? 1 else none

/-- Token extraction of the mandatory authenticator: the header token,
with the token cookie as fallback when the header yields nothing; a
JavaScript-falsy result counts as no token. -/
def extractToken (req : AuthRequest) : Option String :=
  match jsTruthyToken (bearerHeaderToken req.authorization) with
  | some t => some t
  | none => jsTruthyToken req.cookieToken

/-- Token extraction of optionalAuth: the Authorization header only;
there is no cookie fallback in the optional middleware. -/
def optionalExtractToken (req : AuthRequest) : Option String :=
  jsTruthyToken (bearerHeaderToken req.authorization)

/-- What the middleware hands on: a rejection response, or control
passed to the handler with the optionally attached account (serialized
without its password field). -/
inductive AuthOutcome where
  | reject (httpStatus : Nat) (message : String)
  | proceed (attachedUser : Option (List (String × String)))
deriving DecidableEq, Repr

/-- The mandatory authenticate middleware: no token is a 401; a token
the verifier rejects is a 401; a verified token whose account no longer
exists is a 401; otherwise the account, loaded without its password, is
attached and the handler runs. The verifier is a parameter: none models
any invalid or expired signature. -/
def authenticate (verify : String → Option JwtPayload) (users : List User)
    (req : AuthRequest) : AuthOutcome :=
  match extractToken req with
  | none => .reject 401 "Access denied. No token provided."
  | some t =>
    match verify t with
    | none => .reject 401 "Invalid token."
    | some payload =>
      match findById users payload.userId with
      | none => .reject 401 "Token is valid but user no longer exists."
      | some u => .proceed (some (selectWithoutPassword u))

/-- The optionalAuth middleware: the same verifier and account lookup on
the header-extracted token, but every failure path proceeds to the
handler without an attached account instead of rejecting. -/
def optionalAuth (verify : String → Option JwtPayload) (users : List User)
    (req : AuthRequest) : AuthOutcome :=
  match optionalExtractToken req with
  | none => .proceed none
  | some t =>
    match verify t with
    | none => .proceed none
    | some payload =>
      match findById users payload.userId with
      | none => .proceed none
      | some u => .proceed (some (selectWithoutPassword u))

/-! ## Restaurants, proximity search and pagination
(backend/src/routes/restaurants.ts) -/

/-- Geographic coordinates of a restaurant record. -/
structure Coordinates where
  lat : ℝ
  lng : ℝ

/-- Location block of a restaurant record. -/
structure RestaurantLocation where
  address : String
  city : String
  country : String
  coordinates : Coordinates

/-- A restaurant reference item; the presentational fields the route
logic never reads (contact, opening hours, images, description) are
left out. -/
structure Restaurant where
  id : String
  name : String
  cuisine : List String
  rating : ℝ
  priceRange : String
  location : RestaurantLocation
  features : List String

/-- The first mocked restaurant of the router, REST001. -/
noncomputable def goldenSpoon : Restaurant :=
  { id := "REST001", name := "The Golden Spoon",
    cuisine := ["Italian", "Mediterranean"], rating := 4.5, priceRange := "$$$",
    location := { address := "789 Restaurant Row", city := "New York",
                  country := "USA", coordinates := { lat := 40.7580, lng := -73.9855 } },
    features := ["Outdoor Seating", "Wine Bar", "Romantic", "Business Dining"] }

/-- The second mocked restaurant of the router, REST002. -/
noncomputable def sakuraSushi : Restaurant :=
  { id := "REST002", name := "Sakura Sushi",
    cuisine := ["Japanese", "Sushi"], rating := 4.8, priceRange := "$$",
    location := { address := "456 Sushi Street", city := "Los Angeles",
                  country := "USA", coordinates := { lat := 34.0522, lng := -118.2437 } },
    features := ["Fresh Fish", "Sushi Bar", "Takeout", "Lunch Specials"] }

/-- The third mocked restaurant of the router, REST003. -/
noncomputable def lePetitBistro : Restaurant :=
  { id := "REST003", name := "Le Petit Bistro",
    cuisine := ["French"], rating := 4.3, priceRange := "$$$$",
    location := { address := "123 French Quarter", city := "Chicago",
                  country := "USA", coordinates := { lat := 41.8781, lng := -87.6298 } },
    features := ["Fine Dining", "Wine Cellar", "Chef Table", "Private Dining"] }

/-- The mocked reference collection of the restaurants router. -/
noncomputable def mockRestaurants : List Restaurant :=
  [goldenSpoon, sakuraSushi, lePetitBistro]

/-- JavaScript Math.atan2 over the reals, by quadrant. -/
noncomputable def atan2 (y x : ℝ) : ℝ :=
  if 0 < x then Real.arctan (y / x)
  else if x < 0 ∧ 0 ≤ y then Real.arctan (y / x) + Real.pi
  else if x < 0 ∧ y < 0 then Real.arctan (y / x) - Real.pi
  else if x = 0 ∧ 0 < y then Real.pi / 2
  else if x = 0 ∧ y < 0 then -(Real.pi / 2)
  else 0

/-- The haversine great-circle distance of the nearby handler: Earth
radius 6371 km, degree inputs converted to radians. -/
noncomputable def calculateDistance (lat1 lng1 lat2 lng2 : ℝ) : ℝ :=
  let dLat := (lat2 - lat1) * (Real.pi / 180)
  let dLng := (lng2 - lng1) * (Real.pi / 180)
  let a := Real.sin (dLat / 2) * Real.sin (dLat / 2) +
    Real.cos (lat1 * (Real.pi / 180)) * Real.cos (lat2 * (Real.pi / 180)) *
      (Real.sin (dLng / 2) * Real.sin (dLng / 2))
  let c := 2 * atan2 (Real.sqrt a) (Real.sqrt (1 - a))
  6371 * c

/-- The optional cuisine criterion of the nearby handler: absent means
no constraint, otherwise a case-insensitive substring match against
some cuisine tag. -/
def matchesCuisineFilter (cuisine : Option String) (r : Restaurant) : Bool :=
  match cuisine with
  | none => true
  | some c => r.cuisine.any (fun x => jsIncludes (jsToLowerCaseStr x) (jsToLowerCaseStr c))

/-- The optional price-range criterion: exact match when present. -/
def matchesPriceRangeFilter (priceRange : Option String) (r : Restaurant) : Bool :=
  match priceRange with
  | none => true
  | some p => decide (r.priceRange = p)

/-- The optional minimum-rating criterion. -/
noncomputable def matchesRatingFilter (rating : Option ℝ) (r : Restaurant) : Bool :=
  match rating with
  | none => true
  | some m => decide (m ≤ r.rating)

/-- GET /restaurants/nearby before pagination: attach to every item its
haversine distance from the query point, keep the items within the
radius and matching the optional criteria, and sort ascending by
distance. -/
noncomputable def nearbyList (lat lng radius : ℝ) (cuisine priceRange : Option String)
    (rating : Option ℝ) (restaurants : List Restaurant) : List (Restaurant × ℝ) :=
  ((((restaurants.map (fun r =>
        (r, calculateDistance lat lng r.location.coordinates.lat r.location.coordinates.lng))).filter
      (fun rd => decide (rd.2 ≤ radius))).filter
      (fun rd => matchesCuisineFilter cuisine rd.1 && matchesPriceRangeFilter priceRange rd.1 &&
        matchesRatingFilter rating rd.1)).mergeSort
    (fun a b => decide (a.2 ≤ b.2)))

/-- JavaScript Array.prototype.slice(s, e) for non-negative indices. -/
def jsSlice {α : Type} (l : List α) (s e : Nat) : List α :=
  (l.drop s).take (e - s)

/-- Math.ceil(total / limit) of the pagination blocks, over naturals. -/
def computeTotalPages (total limit : Nat) : Nat := (total + limit - 1) / limit

/-- The response envelope of a paginated listing. -/
structure PagedResponse (α : Type) where
  status : String
  items : List α
  page : Nat
  limit : Nat
  total : Nat
  totalPages : Nat

/-- The shared pagination logic of the search and booking listings:
slice the filtered, sorted collection from (page-1)*limit to
page*limit and report total and total-page counts in a success
envelope. -/
def pagedResponse {α : Type} (l : List α) (page limit : Nat) : PagedResponse α :=
  { status := "success",
    items := jsSlice l ((page - 1) * limit) (page * limit),
    page := page, limit := limit, total := l.length,
    totalPages := computeTotalPages l.length limit }

/-! ## Concrete instances used to exercise the theorems -/

/-- A pending hotel booking owned by account 7. -/
def sampleBooking : Booking :=
  { id := 1, user := 7, type := .hotel,
    bookingReference := strCodes "HOTEL-M3K-AB1DE",
    status := .pending, totalAmount := 250, currency := "USD",
    bookingDetails := "checkIn 2026-11-01" }

/-- A registered account. -/
def sampleUser : User :=
  { id := 7, firstName := "Ada", lastName := "Lovelace",
    email := "ada@example.com", password := hashPassword "Secret1",
    phone := none, dateOfBirth := none, passport := none,
    preferences := defaultPreferences, isEmailVerified := false, role := .user }

/-- A store holding the account and one already cancelled booking of
it. -/
def sampleStore : Store :=
  { users := [sampleUser],
    bookings := [{ sampleBooking with status := .cancelled }] }

/-- A verifier accepting two tokens: good resolves to account 7, ghost
to the absent account 99; everything else is rejected. -/
def sampleVerify : String → Option JwtPayload :=
  fun t =>
    if t = "good" then some { userId := 7, email := "ada@example.com", role := .user }
    else if t = "ghost" then some { userId := 99, email := "ghost@example.com", role := .user }
    else none

/-- A request carrying no credential at all. -/
def reqNoToken : AuthRequest := { authorization := none, cookieToken := none }

/-- A request whose bearer token the verifier rejects. -/
def reqBadToken : AuthRequest := { authorization := some "Bearer bad", cookieToken := none }

/-- A request whose bearer token is verified but references a deleted
account. -/
def reqGhostToken : AuthRequest := { authorization := some "Bearer ghost", cookieToken := none }

/-- A request with a verified bearer token of an existing account. -/
def reqGoodToken : AuthRequest := { authorization := some "Bearer good", cookieToken := none }

/-- A request with no Authorization header whose token cookie carries a
verified token of an existing account. -/
def reqCookieOnly : AuthRequest := { authorization := none, cookieToken := some "good" }

/-- A registration request re-using the sample account's email. -/
def sampleRegisterInput : RegisterInput :=
  { firstName := "Eve", lastName := "Intruder", email := "ada@example.com",
    password := "Another1", phone := none, dateOfBirth := none }

/-! ## Helper lemmas -/

/-- Saving a document back over the one the handler found leaves it as
what the same query finds afterwards. -/
theorem findBooking_saveBooking (bs : List Booking) (uid bid : Nat) (b nb : Booking)
    (h : findBooking bs uid bid = some b) (hid : nb.id = b.id) (huser : nb.user = b.user) :
    findBooking (saveBooking bs nb) uid bid = some nb := by
  induction bs with
  | nil => simp [findBooking] at h
  | cons x rest ih =>
    by_cases hx : x.id = bid ∧ x.user = uid
    · have hxb : x = b := by
        have := List.find?_cons_of_pos (p := fun b => decide (b.id = bid ∧ b.user = uid))
          rest (by simpa using hx)
        rw [findBooking, this] at h
        exact Option.some.inj h
      have hcond : x.id = nb.id ∧ x.user = nb.user := by
        constructor
        · rw [hid, ← hxb]
        · rw [huser, ← hxb]
      rw [saveBooking, if_pos hcond, findBooking]
      have : nb.id = bid ∧ nb.user = uid := by
        refine ⟨?_, ?_⟩
        · rw [hid, ← hxb]; exact hx.1
        · rw [huser, ← hxb]; exact hx.2
      rw [List.find?_cons_of_pos _ (by simpa using this)]
    · have hrest : findBooking rest uid bid = some b := by
        rw [findBooking] at h
        rw [List.find?_cons_of_neg _ (by simpa using hx)] at h
        exact h
      have hb : b.id = bid ∧ b.user = uid := by
        have := List.find?_some hrest
        simpa using this
      have hcond : ¬(x.id = nb.id ∧ x.user = nb.user) := by
        intro hc
        exact hx ⟨by rw [hc.1, hid, hb.1], by rw [hc.2, huser, hb.2]⟩
      rw [saveBooking, if_neg hcond, findBooking,
        List.find?_cons_of_neg _ (by simpa using hx)]
      exact ih hrest

/-- A cancel request that finds an already cancelled booking answers
the idempotency-violation error and returns the store unchanged. -/
theorem cancelBooking_found_cancelled (bs : List Booking) (uid bid : Nat) (nb : Booking)
    (h : findBooking bs uid bid = some nb) (hc : nb.status = .cancelled) :
    cancelBooking bs uid bid = (.error 400 "Booking is already cancelled", bs) := by
  simp [cancelBooking, h, hc]

/-- A cancel request that finds a pending or confirmed booking saves it
back with status cancelled. -/
theorem cancelBooking_found_active (bs : List Booking) (uid bid : Nat) (b : Booking)
    (h : findBooking bs uid bid = some b)
    (hst : b.status = .pending ∨ b.status = .confirmed) :
    cancelBooking bs uid bid =
      (.ok "Booking cancelled successfully", saveBooking bs { b with status := .cancelled }) := by
  have hne1 : ¬b.status = .cancelled := by rcases hst with h1 | h1 <;> simp [h1]
  have hne2 : ¬b.status = .completed := by rcases hst with h1 | h1 <;> simp [h1]
  simp [cancelBooking, h, hne1, hne2]

/-! ## The claims -/

/-- C1: for every booking owned by the requester, cancelling an already
cancelled or a completed booking is rejected with a 400 domain error
and leaves the store unchanged, while cancelling a pending or confirmed
booking succeeds, sets the status to cancelled, and makes a second
cancel of the same booking fail without touching the store again. -/
theorem cancel_lifecycle (bs : List Booking) (uid bid : Nat) (b : Booking)
    (h : findBooking bs uid bid = some b) :
    ((b.status = .cancelled ∨ b.status = .completed) →
      (∃ m, (cancelBooking bs uid bid).1 = .error 400 m) ∧
      (cancelBooking bs uid bid).2 = bs) ∧
    ((b.status = .pending ∨ b.status = .confirmed) →
      (cancelBooking bs uid bid).1 = .ok "Booking cancelled successfully" ∧
      findBooking (cancelBooking bs uid bid).2 uid bid = some { b with status := .cancelled } ∧
      (cancelBooking (cancelBooking bs uid bid).2 uid bid).1 =
        .error 400 "Booking is already cancelled" ∧
      (cancelBooking (cancelBooking bs uid bid).2 uid bid).2 = (cancelBooking bs uid bid).2) := by
  constructor
  · rintro (hst | hst) <;> simp [cancelBooking, h, hst]
  · intro hst
    have hstep := cancelBooking_found_active bs uid bid b h hst
    have hfind : findBooking (cancelBooking bs uid bid).2 uid bid =
        some { b with status := BookingStatus.cancelled } := by
      rw [hstep]
      exact findBooking_saveBooking bs uid bid b _ h rfl rfl
    have hstep2 := cancelBooking_found_cancelled (cancelBooking bs uid bid).2 uid bid
      { b with status := BookingStatus.cancelled } hfind rfl
    exact ⟨by rw [hstep], hfind, by rw [hstep2], by rw [hstep2]⟩

/-- C1 exercised on a one-booking store: cancelling the pending sample
booking succeeds and the re-cancel is rejected. -/
theorem cancel_lifecycle_example :
    (sampleBooking.status = .pending ∨ sampleBooking.status = .confirmed) ∧
    ((cancelBooking [sampleBooking] 7 1).1 = .ok "Booking cancelled successfully" ∧
      findBooking (cancelBooking [sampleBooking] 7 1).2 7 1 =
        some { sampleBooking with status := .cancelled } ∧
      (cancelBooking (cancelBooking [sampleBooking] 7 1).2 7 1).1 =
        .error 400 "Booking is already cancelled" ∧
      (cancelBooking (cancelBooking [sampleBooking] 7 1).2 7 1).2 =
        (cancelBooking [sampleBooking] 7 1).2) :=
  ⟨Or.inl rfl,
    (cancel_lifecycle [sampleBooking] 7 1 sampleBooking (by decide)).2 (Or.inl rfl)⟩

/-- C2: with the correct password supplied, account deletion is refused
with the active-bookings error and changes nothing while some booking
of the account is pending or confirmed; once every booking of the
account is cancelled or completed it succeeds and removes the account
together with all of its bookings, touching nothing else. -/
theorem account_deletion_guard (st : Store) (uid : Nat) (pw : String) (u : User)
    (hu : findById st.users uid = some u)
    (hpw : comparePassword pw u.password = true) :
    ((∃ b ∈ st.bookings, b.user = uid ∧ (b.status = .pending ∨ b.status = .confirmed)) →
      (deleteAccount st uid pw).1 = .error 400
        "Cannot delete account with active bookings. Please cancel or complete all bookings first." ∧
      (deleteAccount st uid pw).2 = st) ∧
    ((∀ b ∈ st.bookings, b.user = uid → b.status = .cancelled ∨ b.status = .completed) →
      (deleteAccount st uid pw).1 = .ok "Account deleted successfully" ∧
      (deleteAccount st uid pw).2.users = st.users.filter (fun v => !decide (v.id = uid)) ∧
      (deleteAccount st uid pw).2.bookings = st.bookings.filter (fun b => !decide (b.user = uid)) ∧
      (∀ v ∈ (deleteAccount st uid pw).2.users, v.id ≠ uid) ∧
      (∀ b ∈ (deleteAccount st uid pw).2.bookings, b.user ≠ uid)) := by
  constructor
  · rintro ⟨b, hb, hbu, hbs⟩
    have hmem : b ∈ st.bookings.filter (fun b =>
        decide (b.user = uid ∧ (b.status = .pending ∨ b.status = .confirmed))) :=
      List.mem_filter.mpr ⟨hb, by simpa using ⟨hbu, hbs⟩⟩
    have hpos : 0 < activeBookingCount st.bookings uid := by
      unfold activeBookingCount
      exact List.length_pos.mpr (List.ne_nil_of_mem hmem)
    constructor <;> simp [deleteAccount, hu, hpw, hpos]
  · intro hall
    have hzero : ¬0 < activeBookingCount st.bookings uid := by
      unfold activeBookingCount
      simp only [not_lt, Nat.le_zero, List.length_eq_zero, List.filter_eq_nil_iff]
      intro b hb
      simp only [decide_eq_true_eq, not_and]
      intro hbu hbs
      rcases hall b hb hbu with h1 | h1 <;> rcases hbs with h2 | h2 <;> simp [h1] at h2
    have hd : deleteAccount st uid pw =
        (.ok "Account deleted successfully",
          { users := st.users.filter (fun v => !decide (v.id = uid)),
            bookings := st.bookings.filter (fun b => !decide (b.user = uid)) }) := by
      simp [deleteAccount, hu, hpw, hzero]
    refine ⟨by rw [hd], by rw [hd], by rw [hd], ?_, ?_⟩
    · intro v hv
      rw [hd] at hv
      have := (List.mem_filter.mp hv).2
      simpa using this
    · intro b hb
      rw [hd] at hb
      have := (List.mem_filter.mp hb).2
      simpa using this

/-- C2 exercised on the sample store, whose only booking is cancelled:
deletion with the correct password succeeds. -/
theorem account_deletion_guard_example :
    (∀ b ∈ sampleStore.bookings, b.user = 7 →
      b.status = .cancelled ∨ b.status = .completed) ∧
    (deleteAccount sampleStore 7 "Secret1").1 = .ok "Account deleted successfully" :=
  ⟨by decide,
    ((account_deletion_guard sampleStore 7 "Secret1" sampleUser (by decide) (by decide)).2
      (by decide)).1⟩

/-- C3: registering with the email of an already registered account
answers the duplicate-email error (the Conflict case of the error
taxonomy, reported with status 400) and leaves the account collection
unchanged, so no second account with that email is ever created. -/
theorem register_duplicate_email (users : List User) (newId : Nat) (inp : RegisterInput)
    (u : User) (hu : u ∈ users) (he : u.email = inp.email) :
    (register users newId inp).1 = .error 400 "User with this email already exists" ∧
    (register users newId inp).2 = users := by
  cases hfind : users.find? (fun v => decide (v.email = inp.email)) with
  | none =>
    rw [List.find?_eq_none] at hfind
    exact absurd (by simpa using he) (hfind u hu)
  | some v => constructor <;> simp [register, hfind]

/-- C3 exercised: re-registering the sample account's email is refused
and the collection is untouched. -/
theorem register_duplicate_email_example :
    sampleUser ∈ [sampleUser] ∧
    (register [sampleUser] 8 sampleRegisterInput).1 =
      .error 400 "User with this email already exists" ∧
    (register [sampleUser] 8 sampleRegisterInput).2 = [sampleUser] :=
  ⟨by decide,
    register_duplicate_email [sampleUser] 8 sampleRegisterInput sampleUser (by decide) (by decide)⟩

/-- C4: a login with an email matching no account and a login with a
stored email but mismatching password produce the very same
Unauthorized response, status 401 and message alike, so the two failure
causes are indistinguishable to the caller. -/
theorem login_indistinguishable (users : List User) (e1 p1 e2 p2 : String) (u : User)
    (h1 : users.find? (fun v => decide (v.email = e1)) = none)
    (h2 : users.find? (fun v => decide (v.email = e2)) = some u)
    (h3 : comparePassword p2 u.password = false) :
    login users e1 p1 = .failure 401 "Invalid email or password" ∧
    login users e2 p2 = .failure 401 "Invalid email or password" ∧
    login users e1 p1 = login users e2 p2 := by
  refine ⟨by simp [login, h1], by simp [login, h2, h3], ?_⟩
  simp [login, h1, h2, h3]

/-- C4 exercised: unknown email versus wrong password against the
sample collection yield identical responses. -/
theorem login_indistinguishable_example :
    login [sampleUser] "nobody@example.com" "Whatever1" =
      .failure 401 "Invalid email or password" ∧
    login [sampleUser] "ada@example.com" "WrongPw9" =
      .failure 401 "Invalid email or password" ∧
    login [sampleUser] "nobody@example.com" "Whatever1" =
      login [sampleUser] "ada@example.com" "WrongPw9" :=
  login_indistinguishable [sampleUser] "nobody@example.com" "Whatever1"
    "ada@example.com" "WrongPw9" sampleUser (by decide) (by decide) (by decide)

/-- Deleting a key removes it from the key listing of a document. -/
theorem eraseKey_key_not_mem (k : String) (l : List (String × String)) :
    k ∉ (eraseKey k l).map Prod.fst := by
  intro h
  simp only [eraseKey, List.mem_map, List.mem_filter, Bool.not_eq_eq_eq_not,
    Bool.not_true, decide_eq_false_iff_not] at h
  obtain ⟨p, ⟨_, hne⟩, hk⟩ := h
  exact hne hk

/-- Deleting one key never adds another to the key listing. -/
theorem eraseKey_keys_subset (k other : String) (l : List (String × String)) :
    k ∈ (eraseKey other l).map Prod.fst → k ∈ l.map Prod.fst := by
  intro h
  simp only [eraseKey, List.mem_map, List.mem_filter] at h
  obtain ⟨p, ⟨hp, _⟩, hk⟩ := h
  exact List.mem_map.mpr ⟨p, hp, hk⟩

/-- C5: no account read path serializes a password: the toJSON method
every handler responds with carries no password key for any account
state (so also right after a profile, preference or password update),
the select('-password') projection of the admin listing carries none,
and whatever account document the authenticator attaches to the
request context carries none. -/
theorem no_password_serialized (u : User) (verify : String → Option JwtPayload)
    (users : List User) (req : AuthRequest) (att : List (String × String)) :
    "password" ∉ (User.toJSON u).map Prod.fst ∧
    "password" ∉ (selectWithoutPassword u).map Prod.fst ∧
    (authenticate verify users req = .proceed (some att) →
      "password" ∉ att.map Prod.fst) := by
  refine ⟨?_, eraseKey_key_not_mem "password" (User.toObject u), ?_⟩
  · intro h
    exact eraseKey_key_not_mem "password" (User.toObject u)
      (eraseKey_keys_subset "password" "__v" _ h)
  · intro h
    rcases hex : extractToken req with _ | t
    · rw [show authenticate verify users req =
          .reject 401 "Access denied. No token provided." from by simp [authenticate, hex]] at h
      exact absurd h (by simp)
    rcases hv : verify t with _ | payload
    · rw [show authenticate verify users req = .reject 401 "Invalid token." from by
        simp [authenticate, hex, hv]] at h
      exact absurd h (by simp)
    rcases hf : findById users payload.userId with _ | v
    · rw [show authenticate verify users req =
          .reject 401 "Token is valid but user no longer exists." from by
        simp [authenticate, hex, hv, hf]] at h
      exact absurd h (by simp)
    rw [show authenticate verify users req = .proceed (some (selectWithoutPassword v)) from by
      simp [authenticate, hex, hv, hf]] at h
    have hatt : att = selectWithoutPassword v :=
      (Option.some.inj (AuthOutcome.proceed.inj h)).symm
    rw [hatt]
    exact eraseKey_key_not_mem "password" (User.toObject v)

/-- C5 exercised: the account the authenticator attaches for the good
token exposes no password key. -/
theorem no_password_serialized_example :
    authenticate sampleVerify [sampleUser] reqGoodToken =
      .proceed (some (selectWithoutPassword sampleUser)) ∧
    "password" ∉ (selectWithoutPassword sampleUser).map Prod.fst :=
  ⟨by decide,
    (no_password_serialized sampleUser sampleVerify [sampleUser] reqGoodToken
      (selectWithoutPassword sampleUser)).2.2 (by decide)⟩

/-- C6: the mandatory authenticator rejects a request without a token
with 401, rejects a token the verifier refuses (invalid or expired
signature) with 401, rejects a verified token whose account no longer
exists with 401, and only on success proceeds with the resolved
account, password excluded, attached to the request context. -/
theorem authenticate_spec (verify : String → Option JwtPayload) (users : List User)
    (reqMissing reqInvalid reqGhost reqOk : AuthRequest)
    (tInvalid tGhost tOk : String) (pGhost pOk : JwtPayload) (u : User)
    (hm : extractToken reqMissing = none)
    (hi1 : extractToken reqInvalid = some tInvalid) (hi2 : verify tInvalid = none)
    (hg1 : extractToken reqGhost = some tGhost) (hg2 : verify tGhost = some pGhost)
    (hg3 : findById users pGhost.userId = none)
    (ho1 : extractToken reqOk = some tOk) (ho2 : verify tOk = some pOk)
    (ho3 : findById users pOk.userId = some u) :
    authenticate verify users reqMissing = .reject 401 "Access denied. No token provided." ∧
    authenticate verify users reqInvalid = .reject 401 "Invalid token." ∧
    authenticate verify users reqGhost = .reject 401 "Token is valid but user no longer exists." ∧
    (authenticate verify users reqOk = .proceed (some (selectWithoutPassword u)) ∧
      "password" ∉ (selectWithoutPassword u).map Prod.fst) := by
  refine ⟨?_, ?_, ?_, ?_, eraseKey_key_not_mem "password" (User.toObject u)⟩
  · simp [authenticate, hm]
  · simp [authenticate, hi1, hi2]
  · simp [authenticate, hg1, hg2, hg3]
  · simp [authenticate, ho1, ho2, ho3]

/-- C6 exercised on the four sample requests against the sample
verifier and collection. -/
theorem authenticate_spec_example :
    authenticate sampleVerify [sampleUser] reqNoToken =
      .reject 401 "Access denied. No token provided." ∧
    authenticate sampleVerify [sampleUser] reqBadToken = .reject 401 "Invalid token." ∧
    authenticate sampleVerify [sampleUser] reqGhostToken =
      .reject 401 "Token is valid but user no longer exists." ∧
    (authenticate sampleVerify [sampleUser] reqGoodToken =
      .proceed (some (selectWithoutPassword sampleUser)) ∧
      "password" ∉ (selectWithoutPassword sampleUser).map Prod.fst) :=
  authenticate_spec sampleVerify [sampleUser] reqNoToken reqBadToken reqGhostToken reqGoodToken
    "bad" "ghost" "good"
    { userId := 99, email := "ghost@example.com", role := .user }
    { userId := 7, email := "ada@example.com", role := .user } sampleUser
    (by decide) (by decide) (by decide) (by decide) (by decide) (by decide)
    (by decide) (by decide) (by decide)

/-- C7 as stated fails: token extraction is not identical between the
two modes, because optionalAuth has no cookie fallback. On a request
whose only credential is a valid token cookie of an existing account,
the mandatory authenticator extracts the token and attaches the
account, while optionalAuth extracts nothing and proceeds anonymously. -/
theorem optionalAuth_cookie_counterexample :
    extractToken reqCookieOnly = some "good" ∧
    optionalExtractToken reqCookieOnly = none ∧
    authenticate sampleVerify [sampleUser] reqCookieOnly =
      .proceed (some (selectWithoutPassword sampleUser)) ∧
    optionalAuth sampleVerify [sampleUser] reqCookieOnly = .proceed none := by
  decide

/-- C7 amended: optional-mode authentication extracts the token from
the Authorization header exactly as mandatory mode does but without its
cookie fallback; on a header-extracted token it performs the identical
validation and account resolution, and whenever the token is absent or
fails validation the request proceeds without an attached account
rather than being rejected. -/
theorem optionalAuth_spec (verify : String → Option JwtPayload) (users : List User)
    (req : AuthRequest) :
    optionalExtractToken req = jsTruthyToken (bearerHeaderToken req.authorization) ∧
    (∀ t, optionalExtractToken req = some t → extractToken req = some t) ∧
    (∀ t payload u, optionalExtractToken req = some t → verify t = some payload →
      findById users payload.userId = some u →
      optionalAuth verify users req = authenticate verify users req ∧
      optionalAuth verify users req = .proceed (some (selectWithoutPassword u))) ∧
    (optionalExtractToken req = none → optionalAuth verify users req = .proceed none) ∧
    (∀ t, optionalExtractToken req = some t → verify t = none →
      optionalAuth verify users req = .proceed none) ∧
    (∀ t payload, optionalExtractToken req = some t → verify t = some payload →
      findById users payload.userId = none →
      optionalAuth verify users req = .proceed none) := by
  refine ⟨rfl, ?_, ?_, ?_, ?_, ?_⟩
  · intro t ht
    unfold optionalExtractToken at ht
    unfold extractToken
    rw [ht]
  · intro t payload u ht hv hf
    have het : extractToken req = some t := by
      unfold optionalExtractToken at ht
      unfold extractToken
      rw [ht]
    have ho : optionalAuth verify users req = .proceed (some (selectWithoutPassword u)) := by
      simp [optionalAuth, ht, hv, hf]
    have ha : authenticate verify users req = .proceed (some (selectWithoutPassword u)) := by
      simp [authenticate, het, hv, hf]
    exact ⟨ho.trans ha.symm, ho⟩
  · intro h
    simp [optionalAuth, h]
  · intro t ht hv
    simp [optionalAuth, ht, hv]
  · intro t payload ht hv hf
    simp [optionalAuth, ht, hv, hf]

/-- C7 amended exercised: on a header-carried good token the optional
middleware agrees with the mandatory one and attaches the account. -/
theorem optionalAuth_spec_example :
    optionalExtractToken reqGoodToken = some "good" ∧
    (optionalAuth sampleVerify [sampleUser] reqGoodToken =
      authenticate sampleVerify [sampleUser] reqGoodToken ∧
      optionalAuth sampleVerify [sampleUser] reqGoodToken =
      .proceed (some (selectWithoutPassword sampleUser))) :=
  ⟨by decide,
    (optionalAuth_spec sampleVerify [sampleUser] reqGoodToken).2.2.1 "good"
      { userId := 7, email := "ada@example.com", role := .user } sampleUser
      (by decide) (by decide) (by decide)⟩

/-- Math.atan2 at the point the zero-distance case reaches. -/
theorem atan2_zero_one : atan2 0 1 = 0 := by
  unfold atan2
  rw [if_pos one_pos]
  simp [Real.arctan_zero]

/-- The haversine distance from a point to itself is zero. -/
theorem calculateDistance_self (lat lng : ℝ) : calculateDistance lat lng lat lng = 0 := by
  unfold calculateDistance
  simp [sub_self, zero_mul, zero_div, Real.sin_zero, mul_zero, add_zero, zero_add,
    Real.sqrt_zero, sub_zero, Real.sqrt_one, atan2_zero_one]

/-- C8: with an accepted radius and no optional criteria, the nearby
operation computes exactly the restaurants whose haversine great-circle
distance (Earth radius 6371 km) from the query point is within the
radius, each paired with that distance, sorted ascending by distance;
a restaurant at the query point itself has distance zero and is always
included. -/
theorem nearby_spec (lat lng radius : ℝ) (rs : List Restaurant)
    (hR1 : 0.1 < radius) (hR2 : radius ≤ 50) :
    (∀ rd : Restaurant × ℝ,
      rd ∈ nearbyList lat lng radius none none none rs ↔
        rd.1 ∈ rs ∧
        rd.2 = calculateDistance lat lng rd.1.location.coordinates.lat
          rd.1.location.coordinates.lng ∧
        rd.2 ≤ radius) ∧
    (nearbyList lat lng radius none none none rs).Pairwise
      (fun a b => a.2 ≤ b.2) ∧
    (∀ r ∈ rs, r.location.coordinates.lat = lat → r.location.coordinates.lng = lng →
      calculateDistance lat lng r.location.coordinates.lat r.location.coordinates.lng = 0 ∧
      (r, (0 : ℝ)) ∈ nearbyList lat lng radius none none none rs) := by
  have hmem : ∀ rd : Restaurant × ℝ,
      rd ∈ nearbyList lat lng radius none none none rs ↔
        rd.1 ∈ rs ∧
        rd.2 = calculateDistance lat lng rd.1.location.coordinates.lat
          rd.1.location.coordinates.lng ∧
        rd.2 ≤ radius := by
    intro rd
    unfold nearbyList
    rw [List.Perm.mem_iff (List.mergeSort_perm _ _)]
    rw [List.mem_filter, List.mem_filter, List.mem_map]
    constructor
    · rintro ⟨⟨⟨r, hr, heq⟩, h1⟩, h2⟩
      rcases rd with ⟨r', d⟩
      obtain ⟨rfl, rfl⟩ : r = r' ∧
          calculateDistance lat lng r.location.coordinates.lat r.location.coordinates.lng = d := by
        have h1 := congrArg Prod.fst heq
        have h2 := congrArg Prod.snd heq
        exact ⟨h1, h2⟩
      exact ⟨hr, rfl, by simpa using h1⟩
    · rintro ⟨h1, h2, h3⟩
      refine ⟨⟨⟨rd.1, h1, ?_⟩, by simpa using h3⟩, ?_⟩
      · rw [← h2]
      · simp [matchesCuisineFilter, matchesPriceRangeFilter, matchesRatingFilter]
  refine ⟨hmem, ?_, ?_⟩
  · have hs := @List.sorted_mergeSort (Restaurant × ℝ)
      (fun a b => decide (a.2 ≤ b.2))
      (fun a b c hab hbc => by
        simp only [decide_eq_true_eq] at hab hbc ⊢
        exact le_trans hab hbc)
      (fun a b => by
        rcases le_total a.2 b.2 with h | h <;> simp [h])
      ((((rs.map (fun r =>
          (r, calculateDistance lat lng r.location.coordinates.lat
            r.location.coordinates.lng))).filter
          (fun rd => decide (rd.2 ≤ radius))).filter
          (fun rd => matchesCuisineFilter none rd.1 && matchesPriceRangeFilter none rd.1 &&
            matchesRatingFilter none rd.1)))
    unfold nearbyList
    exact hs.imp (fun h => of_decide_eq_true h)
  · intro r hr h1 h2
    have hd : calculateDistance lat lng r.location.coordinates.lat
        r.location.coordinates.lng = 0 := by
      rw [h1, h2]
      exact calculateDistance_self lat lng
    refine ⟨hd, (hmem (r, 0)).mpr ⟨hr, hd.symm, ?_⟩⟩
    show (0 : ℝ) ≤ radius
    linarith

/-- C8 exercised on the mocked collection: Sakura Sushi is at the query
point (34.0522, -118.2437), so its distance is zero and it is included
at radius 1. -/
theorem nearby_spec_example :
    ((0.1 : ℝ) < 1 ∧ (1 : ℝ) ≤ 50) ∧
    calculateDistance 34.0522 (-118.2437) sakuraSushi.location.coordinates.lat
      sakuraSushi.location.coordinates.lng = 0 ∧
    (sakuraSushi, (0 : ℝ)) ∈ nearbyList 34.0522 (-118.2437) 1 none none none mockRestaurants :=
  ⟨by norm_num,
    (nearby_spec 34.0522 (-118.2437) 1 mockRestaurants (by norm_num) (by norm_num)).2.2
      sakuraSushi (by simp [mockRestaurants]) rfl rfl⟩

/-- C9: a paginated listing over N matching items with page p and
limit L reports totalPages equal to the ceiling of N/L, returns the
slice from (p-1)*L to p*L, and for any page beyond totalPages returns
an empty slice inside a success envelope, not an error. -/
theorem pagination_spec {α : Type} (l : List α) (p L : Nat) (hp : 1 ≤ p) (hL : 1 ≤ L) :
    ((pagedResponse l p L).totalPages : ℤ) = ⌈(l.length : ℚ) / (L : ℚ)⌉ ∧
    (pagedResponse l p L).items = jsSlice l ((p - 1) * L) (p * L) ∧
    ((pagedResponse l p L).totalPages < p →
      (pagedResponse l p L).items = [] ∧ (pagedResponse l p L).status = "success") := by
  have hL0 : 0 < L := hL
  have key : l.length ≤ computeTotalPages l.length L * L ∧
      computeTotalPages l.length L * L < l.length + L := by
    have h1 := Nat.div_add_mod (l.length + L - 1) L
    have h2 := Nat.mod_lt (l.length + L - 1) hL0
    unfold computeTotalPages
    obtain ⟨m, hm⟩ : ∃ m, (l.length + L - 1) / L = m := ⟨_, rfl⟩
    rw [hm] at h1 ⊢
    obtain ⟨q, hq⟩ : ∃ q, L * m = q := ⟨_, rfl⟩
    rw [hq] at h1
    rw [Nat.mul_comm m L, hq]
    omega
  refine ⟨?_, rfl, ?_⟩
  · have hLQ : (0 : ℚ) < (L : ℚ) := by exact_mod_cast hL0
    show ((computeTotalPages l.length L : ℤ)) = ⌈(l.length : ℚ) / (L : ℚ)⌉
    symm
    rw [Int.ceil_eq_iff]
    constructor
    · have c2 : ((computeTotalPages l.length L : ℚ)) * L < (l.length : ℚ) + L := by
        exact_mod_cast key.2
      push_cast
      rw [sub_lt_iff_lt_add, div_add' _ _ _ (ne_of_gt hLQ), lt_div_iff₀ hLQ]
      linarith
    · push_cast
      rw [div_le_iff₀ hLQ]
      exact_mod_cast key.1
  · intro hlt
    have hlt' : computeTotalPages l.length L < p := hlt
    have hqp : computeTotalPages l.length L ≤ p - 1 := by omega
    have hlen : l.length ≤ (p - 1) * L :=
      le_trans key.1 (mul_le_mul_right' hqp L)
    refine ⟨?_, rfl⟩
    show jsSlice l ((p - 1) * L) (p * L) = []
    unfold jsSlice
    rw [List.drop_eq_nil_of_le hlen, List.take_nil]

/-- C9 exercised: five items at limit 2 give three pages, and page
four is an empty success. -/
theorem pagination_spec_example :
    (pagedResponse [10, 20, 30, 40, 50] 4 2).items = [] ∧
    (pagedResponse [10, 20, 30, 40, 50] 4 2).status = "success" :=
  (pagination_spec [10, 20, 30, 40, 50] 4 2 (by decide) (by decide)).2.2 (by decide)

/-- Upper-casing a code unit twice is the same as doing it once. -/
theorem upCode_idem (n : Nat) : upCode (upCode n) = upCode n := by
  unfold upCode
  by_cases h : 97 ≤ n ∧ n ≤ 122
  · rw [if_pos h, if_neg (by omega : ¬(97 ≤ n - 32 ∧ n - 32 ≤ 122))]
  · rw [if_neg h, if_neg h]

/-- JavaScript toUpperCase is idempotent on code-unit sequences. -/
theorem jsToUpperCase_idem (l : List Nat) :
    jsToUpperCase (jsToUpperCase l) = jsToUpperCase l := by
  unfold jsToUpperCase
  simp [List.map_map, Function.comp, upCode_idem]

/-- C10: an auto-generated booking reference is fixed by upper-casing
(it contains no lower-case character), and the reference lookup
upper-cases the supplied string before matching, so any two
case-variants of a reference resolve alike; in particular every
case-variant of a stored generated reference returns the very booking
the exact reference returns. -/
theorem booking_reference_case_insensitive (t : BookingType)
    (timeComponent randomComponent : List Nat) (bs : List Booking) (uid : Nat)
    (r variant : List Nat) :
    jsToUpperCase (generateBookingReference t timeComponent randomComponent) =
      generateBookingReference t timeComponent randomComponent ∧
    (jsToUpperCase variant = jsToUpperCase r →
      lookupByReference bs uid variant = lookupByReference bs uid r) ∧
    (∀ bk, lookupByReference bs uid
        (generateBookingReference t timeComponent randomComponent) = some bk →
      jsToUpperCase variant =
        jsToUpperCase (generateBookingReference t timeComponent randomComponent) →
      lookupByReference bs uid variant = some bk) := by
  refine ⟨jsToUpperCase_idem _, ?_, ?_⟩
  · intro h
    unfold lookupByReference
    rw [h]
  · intro bk hbk hvar
    unfold lookupByReference at hbk ⊢
    rw [hvar]
    exact hbk

/-- C10 exercised: the generated sample reference resolves, and so does
a mixed-case variant of it. -/
theorem booking_reference_case_insensitive_example :
    lookupByReference [sampleBooking] 7
      (generateBookingReference .hotel (strCodes "m3k") (strCodes "ab1de")) =
      some sampleBooking ∧
    lookupByReference [sampleBooking] 7 (strCodes "hotel-m3k-AB1de") = some sampleBooking :=
  ⟨by decide,
    (booking_reference_case_insensitive .hotel (strCodes "m3k") (strCodes "ab1de")
      [sampleBooking] 7
      (generateBookingReference .hotel (strCodes "m3k") (strCodes "ab1de"))
      (strCodes "hotel-m3k-AB1de")).2.2 sampleBooking (by decide) (by decide)⟩
